import Mathlib

/-!
Shallow embedding of the reddit-telegram-forwarder core (src/src/database/models.py,
src/src/bot.py, src/src/reddit_scraper.py, src/src/handlers/commands.py).

Timestamps are modelled as `Nat` seconds.  Each fallible store operation takes a
`fail : Bool` flag: `fail = true` models the `except Exception` path of the Python
function (the operation raises before anything is committed, and the handler
returns the documented fallback value).  SQLite rowids produced by
`AUTOINCREMENT` are modelled with monotone counters in the state.
-/

namespace RTF

/-- A row of the `posts` table (models.py, `init_db`). -/
structure Post where
  id : String
  subreddit : String
  title : String
  url : String
  author : String
  created_utc : Int
  permalink : String
  media_type : Option String
  file_path : Option String
  scraped_at : Nat
  status : String
  admin_id : Option Int
  deriving Repr, DecidableEq

/-- A row of the `forwarder_rules` table (models.py, `init_db`). -/
structure Rule where
  id : Nat
  admin_id : Int
  subreddit : String
  sort_type : String
  time_filter : Option String
  frequency_hours : Nat
  target_channel : String
  active : Bool
  created_at : Nat
  last_check : Option Nat
  deriving Repr, DecidableEq

/-- A row of the `pending_approvals` table (models.py, `init_db`). -/
structure PendingApproval where
  id : Nat
  post_id : String
  admin_id : Int
  rule_id : Nat
  message_id : Option Int
  created_at : Nat
  deriving Repr, DecidableEq

/-- A row of the `approved_posts` table (models.py, `init_db`). -/
structure ApprovedPost where
  id : Nat
  post_id : String
  admin_id : Int
  rule_id : Nat
  target_channel : String
  forwarded_message_id : Option Int
  approved_at : Nat
  deriving Repr, DecidableEq

/-- The four tables created by `Database.init_db`, plus the next `AUTOINCREMENT`
rowid of each autoincremented table. -/
structure DBState where
  posts : List Post
  rules : List Rule
  pending : List PendingApproval
  approved : List ApprovedPost
  nextRuleId : Nat
  nextPendingId : Nat
  nextApprovedId : Nat
  deriving Repr, DecidableEq

/-- The freshly initialised database (`init_db` on a new file); SQLite
AUTOINCREMENT rowids start at 1. -/
def emptyDB : DBState :=
  { posts := [], rules := [], pending := [], approved := []
    nextRuleId := 1, nextPendingId := 1, nextApprovedId := 1 }

/-- The post descriptor dict built by `RedditScraper.scrape_subreddit` and passed
to `Database.add_post` (only the fields the store and scheduler read). -/
structure PostData where
  id : String
  subreddit : String
  title : String
  url : String
  author : String
  created_utc : Int
  permalink : String
  media_type : Option String
  file_path : Option String
  deriving Repr, DecidableEq

/-- `Database.add_post` (models.py:93-123).  `INSERT OR IGNORE` inserts only when
no row with this id exists; the return value is the result of
`SELECT COUNT(*) ... WHERE id = ? AND scraped_at > datetime(now, -1 minute)`,
i.e. whether a row with that id was scraped within the last 60 seconds
(`scraped_at > now - 60`, written additively as `now < scraped_at + 60`).
On exception: `False`, nothing committed. -/
def add_post (fail : Bool) (now : Nat) (s : DBState) (pd : PostData) : Bool × DBState :=
  if fail then (false, s) else
  let posts' :=
    if s.posts.any (fun p => p.id = pd.id) then s.posts
    else s.posts ++ [{ id := pd.id, subreddit := pd.subreddit, title := pd.title,
                       url := pd.url, author := pd.author, created_utc := pd.created_utc,
                       permalink := pd.permalink, media_type := pd.media_type,
                       file_path := pd.file_path, scraped_at := now,
                       status := "pending", admin_id := none }]
  let cnt := posts'.countP (fun p => p.id = pd.id ∧ now < p.scraped_at + 60)
  (cnt > 0, { s with posts := posts' })

/-- `Database.post_exists` (models.py:125-134).  On exception: `False`. -/
def post_exists (fail : Bool) (s : DBState) (post_id : String) : Bool :=
  if fail then false else s.posts.any (fun p => p.id = post_id)

/-- Does a rule row match the `UNIQUE(admin_id, subreddit, sort_type, target_channel)`
key of the `forwarder_rules` table? -/
def ruleKeyMatch (admin_id : Int) (subreddit sort_type target_channel : String)
    (r : Rule) : Prop :=
  r.admin_id = admin_id ∧ r.subreddit = subreddit ∧
    r.sort_type = sort_type ∧ r.target_channel = target_channel

instance (a : Int) (su st tc : String) (r : Rule) :
    Decidable (ruleKeyMatch a su st tc r) := by
  unfold ruleKeyMatch; infer_instance

/-- `Database.add_forwarder_rule` (models.py:136-150).  `INSERT OR REPLACE` deletes
every row conflicting on the unique key and inserts a fresh row; `active`,
`created_at` and `last_check` take their column defaults (1, CURRENT_TIMESTAMP,
NULL); the returned `lastrowid` is a fresh AUTOINCREMENT id.  On exception: `0`,
nothing committed. -/
def add_forwarder_rule (fail : Bool) (now : Nat) (s : DBState) (admin_id : Int)
    (subreddit sort_type : String) (time_filter : Option String)
    (frequency_hours : Nat) (target_channel : String) : Nat × DBState :=
  if fail then (0, s) else
  let newId := s.nextRuleId
  let kept := s.rules.filter
    (fun r => ¬ ruleKeyMatch admin_id subreddit sort_type target_channel r)
  let newRule : Rule :=
    { id := newId, admin_id := admin_id, subreddit := subreddit,
      sort_type := sort_type, time_filter := time_filter,
      frequency_hours := frequency_hours, target_channel := target_channel,
      active := true, created_at := now, last_check := none }
  (newId, { s with rules := kept ++ [newRule], nextRuleId := newId + 1 })

/-- Stable insertion by `created_at`, modelling `ORDER BY created_at`. -/
def insertByCreated (r : Rule) : List Rule → List Rule
  | [] => [r]
  | x :: xs => if r.created_at ≤ x.created_at then r :: x :: xs
               else x :: insertByCreated r xs

/-- Sort a rule list by `created_at` ascending. -/
def sortByCreated : List Rule → List Rule
  | [] => []
  | x :: xs => insertByCreated x (sortByCreated xs)

/-- `Database.get_active_rules` (models.py:152-166):
`SELECT * FROM forwarder_rules WHERE active = 1 ORDER BY created_at`.
On exception: the empty list. -/
def get_active_rules (fail : Bool) (s : DBState) : List Rule :=
  if fail then [] else sortByCreated (s.rules.filter (fun r => r.active))

/-- `Database.update_rule_last_check` (models.py:168-179): sets `last_check` to
now for the given rule id; exceptions are swallowed (modelled: no change). -/
def update_rule_last_check (fail : Bool) (now : Nat) (s : DBState) (rule_id : Nat) :
    DBState :=
  if fail then s else
  let rules' := s.rules.map
    (fun r => if r.id = rule_id then { r with last_check := some now } else r)
  { s with rules := rules' }

/-- `Database.add_pending_approval` (models.py:181-193).  On exception: `0`,
nothing committed. -/
def add_pending_approval (fail : Bool) (now : Nat) (s : DBState) (post_id : String)
    (admin_id : Int) (rule_id : Nat) (message_id : Int) : Nat × DBState :=
  if fail then (0, s) else
  let newId := s.nextPendingId
  let row : PendingApproval :=
    { id := newId, post_id := post_id, admin_id := admin_id, rule_id := rule_id,
      message_id := some message_id, created_at := now }
  (newId, { s with pending := s.pending ++ [row], nextPendingId := newId + 1 })

/-- Does a pending-approval row match the (post id, admin id, rule id) triple used
by the `DELETE FROM pending_approvals` statements of `approve_post`/`reject_post`? -/
def paTripleMatch (post_id : String) (admin_id : Int) (rule_id : Nat)
    (pa : PendingApproval) : Prop :=
  pa.post_id = post_id ∧ pa.admin_id = admin_id ∧ pa.rule_id = rule_id

instance (pid : String) (a : Int) (rid : Nat) (pa : PendingApproval) :
    Decidable (paTripleMatch pid a rid pa) := by
  unfold paTripleMatch; infer_instance

/-- `Database.approve_post` (models.py:213-238): inserts an `approved_posts` row,
sets status to approved and admin_id to the actor on the post, deletes the matching
`pending_approvals` rows, and returns `True` — unconditionally, with no check
that a pending approval existed.  On exception: `False`, nothing committed. -/
def approve_post (fail : Bool) (now : Nat) (s : DBState) (post_id : String)
    (admin_id : Int) (rule_id : Nat) (target_channel : String)
    (forwarded_message_id : Option Int) : Bool × DBState :=
  if fail then (false, s) else
  let row : ApprovedPost :=
    { id := s.nextApprovedId, post_id := post_id, admin_id := admin_id,
      rule_id := rule_id, target_channel := target_channel,
      forwarded_message_id := forwarded_message_id, approved_at := now }
  let posts' := s.posts.map
    (fun p => if p.id = post_id
              then { p with status := "approved", admin_id := some admin_id }
              else p)
  let pending' := s.pending.filter
    (fun pa => ¬ paTripleMatch post_id admin_id rule_id pa)
  (true, { s with approved := s.approved ++ [row],
                  nextApprovedId := s.nextApprovedId + 1,
                  posts := posts', pending := pending' })

/-- `Database.reject_post` (models.py:240-258): sets
status to rejected and admin_id to the actor on the post, deletes the matching
`pending_approvals` rows, returns `True` unconditionally.
On exception: `False`, nothing committed. -/
def reject_post (fail : Bool) (s : DBState) (post_id : String) (admin_id : Int)
    (rule_id : Nat) : Bool × DBState :=
  if fail then (false, s) else
  let posts' := s.posts.map
    (fun p => if p.id = post_id
              then { p with status := "rejected", admin_id := some admin_id }
              else p)
  let pending' := s.pending.filter
    (fun pa => ¬ paTripleMatch post_id admin_id rule_id pa)
  (true, { s with posts := posts', pending := pending' })

/-- `Database.get_rule_by_id` (models.py:290-302).  On exception: `None`. -/
def get_rule_by_id (fail : Bool) (s : DBState) (rule_id : Nat) : Option Rule :=
  if fail then none else s.rules.find? (fun r => r.id = rule_id)

/-! ### Media-kind classification (reddit_scraper.py) -/

/-- Is `needle` a contiguous sublist of `hay`?  Models the Python `in` operator
on strings. -/
def listContainsSub (hay needle : List Char) : Bool :=
  needle.isPrefixOf hay ||
    match hay with
    | [] => false
    | _ :: t => listContainsSub t needle

/-- `needle in hay` for strings. -/
def strContainsSub (hay needle : String) : Bool :=
  listContainsSub hay.toList needle.toList

/-- The fields of a PRAW submission read by `RedditScraper._get_media_type`:
`gallery_data` truthy, the key set of a truthy `media` dict, the url, `is_self`. -/
structure Submission where
  gallery_data : Bool
  media : List String
  url : String
  is_self : Bool
  deriving Repr, DecidableEq

/-- The tuple of extensions tested by `post.url.endswith(image_extensions)` in
`_get_media_type` (reddit_scraper.py:187). -/
def getTypeImageExts : List String :=
  [".jpg", ".jpeg", ".png", ".gif", ".webp", ".bmp"]

/-- `RedditScraper._get_media_type` (reddit_scraper.py:167-205): gallery marker,
then native `reddit_video` in the media dict, then direct image extension, then
reddit image CDN substring, then self post, else the default `video`. -/
def get_media_type (p : Submission) : String :=
  if p.gallery_data then "gallery"
  else if p.media ≠ [] ∧ "reddit_video" ∈ p.media then "video"
  else if getTypeImageExts.any (fun ext => p.url.endsWith ext) then "image"
  else if strContainsSub p.url "i.redd.it" || strContainsSub p.url "preview.redd.it"
    then "image"
  else if p.is_self then "text"
  else "video"

/-! ### Rule scheduler (bot.py) -/

/-- `RedditTelegramBot._should_check_rule` (bot.py:221-230): true when
`last_check` is NULL, else when `now ≥ last_check + frequency_hours` hours. -/
def should_check_rule (now : Nat) (r : Rule) : Bool :=
  match r.last_check with
  | none => true
  | some lc => lc + r.frequency_hours * 3600 ≤ now

/-- Result of one scheduler pass: the store state, plus (for stating temporal
properties) the ids for which `download_media` was invoked and the ids delivered
for approval. -/
structure PassResult where
  state : DBState
  downloaded : List String
  delivered : List String
  deriving Repr, DecidableEq

/-- The per-candidate body of the loop in `_check_rule` (bot.py:193-211).
`download` models `reddit_scraper.download_media` (a local file path, or `None`
when every acquisition strategy failed); `deliver` models the external Telegram
send inside `_send_for_approval` (the message id of the sent approval message,
or `None` when no message was sent — unsupported media type or a send
exception). -/
def process_post (download : PostData → Option String) (deliver : PostData → Option Int)
    (fail : Bool) (now : Nat) (admin_id : Int) (rule_id : Nat)
    (acc : PassResult) (pd : PostData) : PassResult :=
  if post_exists fail acc.state pd.id then acc
  else
    let dl := acc.downloaded ++ [pd.id]
    match download pd with
    | some fp =>
      let pd' := { pd with file_path := some fp }
      let r := add_post fail now acc.state pd'
      if r.1 then
        match deliver pd' with
        | some msgId =>
          { state := (add_pending_approval fail now r.2 pd.id admin_id rule_id
              msgId).2,
            downloaded := dl, delivered := acc.delivered ++ [pd.id] }
        | none => { state := r.2, downloaded := dl, delivered := acc.delivered }
      else { state := r.2, downloaded := dl, delivered := acc.delivered }
    | none =>
      { state := (add_post fail now acc.state { pd with file_path := none }).2,
        downloaded := dl, delivered := acc.delivered }

/-- The candidate loop of `_check_rule` over the scraped post list. -/
def process_posts (download : PostData → Option String) (deliver : PostData → Option Int)
    (fail : Bool) (now : Nat) (admin_id : Int) (rule_id : Nat)
    (s : DBState) (posts : List PostData) : PassResult :=
  posts.foldl (process_post download deliver fail now admin_id rule_id)
    { state := s, downloaded := [], delivered := [] }

/-- `RedditTelegramBot._check_rule` (bot.py:172-219): return immediately unless
the rule is due; otherwise process the scraped candidates (`posts` stands for
what `scrape_subreddit` returned) and update the last-check time of the rule. -/
def check_rule (download : PostData → Option String) (deliver : PostData → Option Int)
    (fail : Bool) (now : Nat) (s : DBState) (rule : Rule)
    (posts : List PostData) : PassResult :=
  if should_check_rule now rule then
    let r := process_posts download deliver fail now rule.admin_id rule.id s posts
    { r with state := update_rule_last_check fail now r.state rule.id }
  else { state := s, downloaded := [], delivered := [] }

/-! ### Approval decision handler (handlers/commands.py) -/

/-- The joined row returned by `Database.get_pending_approval`
(`pending_approvals` ⋈ `posts` ⋈ `forwarder_rules`), restricted to the fields
`_approve_post` reads. -/
structure ApprovalData where
  post_id : String
  rule_id : Nat
  target_channel : String
  file_path : Option String
  title : String
  permalink : String
  media_type : Option String
  deriving Repr, DecidableEq

/-- The user-visible outcome of `CommandHandlers._approve_post`. -/
inductive ApproveOutcome where
  | mediaNotFound      -- file_path is NULL ("Media file not found")
  | mediaGone          -- file_path set but not on disk ("Media file no longer exists")
  | unsupportedType    -- media_type is neither image nor video
  | sendFailed         -- the Telegram send raised (BadRequest etc.)
  | storeFailed        -- approve_post returned False
  | approved           -- forwarded and finalized
  deriving Repr, DecidableEq

/-- `CommandHandlers._approve_post` (commands.py:412-513).  `fs` models the set
of paths existing on disk (`os.path.exists`); `send` models the external
Telegram send to the target channel (`some fwdId` on success, `none` when it
raised).  The early-return branches touch no store state. -/
def handler_approve_post (fs : List String) (send : Option Int) (dbFail : Bool)
    (now : Nat) (actor_id : Int) (s : DBState) (ad : ApprovalData) :
    ApproveOutcome × DBState :=
  match ad.file_path with
  | none => (ApproveOutcome.mediaNotFound, s)
  | some fp =>
    if fp ∉ fs then (ApproveOutcome.mediaGone, s)
    else if ad.media_type = some "image" ∨ ad.media_type = some "video" then
      match send with
      | none => (ApproveOutcome.sendFailed, s)
      | some fwdId =>
        let r := approve_post dbFail now s ad.post_id actor_id ad.rule_id
          ad.target_channel (some fwdId)
        if r.1 then (ApproveOutcome.approved, r.2)
        else (ApproveOutcome.storeFailed, r.2)
    else (ApproveOutcome.unsupportedType, s)

/-! ### Concrete fixtures used by witnesses and counterexamples -/

/-- A sample scraped post descriptor. -/
def pdX : PostData :=
  { id := "x1", subreddit := "pics", title := "a cat", url := "https://i.redd.it/x1.jpg",
    author := "alice", created_utc := 1700000000, permalink := "https://reddit.com/x1",
    media_type := some "image", file_path := some "/tmp/x1.jpg" }

/-- A sample stored post in status pending, admin undecided. -/
def postP : Post :=
  { id := "p", subreddit := "pics", title := "a dog", url := "https://i.redd.it/p.jpg",
    author := "bob", created_utc := 1700000001, permalink := "https://reddit.com/p",
    media_type := some "image", file_path := some "/tmp/p.jpg",
    scraped_at := 0, status := "pending", admin_id := none }

/-- A sample stored rule. -/
def ruleR : Rule :=
  { id := 1, admin_id := 7, subreddit := "pics", sort_type := "hot",
    time_filter := none, frequency_hours := 4, target_channel := "@chan",
    active := true, created_at := 0, last_check := none }

/-- A sample pending approval not matching the (p, 7, 1) triple. -/
def paOther : PendingApproval :=
  { id := 2, post_id := "q", admin_id := 7, rule_id := 1,
    message_id := some 11, created_at := 0 }

/-- A store holding one pending post and one rule, and no pending approvals. -/
def sNoPending : DBState :=
  { emptyDB with posts := [postP], rules := [ruleR], nextRuleId := 2 }

/-- A store holding one pending post, one rule, and one unrelated pending
approval. -/
def sOnePending : DBState :=
  { emptyDB with
      posts := [postP], rules := [ruleR], pending := [paOther],
      nextRuleId := 2, nextPendingId := 3 }

/-! ### Helper lemmas -/

/-- Filtering by `p` after keeping only elements refuting `p` yields nothing. -/
theorem filter_not_filter_eq_nil {α : Type} (p : α → Bool) (l : List α) :
    (l.filter (fun a => !(p a))).filter p = [] := by
  induction l with
  | nil => rfl
  | cons x t ih =>
      by_cases h : p x = true <;>
        simp [List.filter_cons, h, ih]

/-- No element kept by the negated filter satisfies `p`. -/
theorem countP_filter_not_eq_zero {α : Type} (p : α → Bool) (l : List α) :
    (l.filter (fun a => !(p a))).countP p = 0 := by
  induction l with
  | nil => rfl
  | cons x t ih =>
      by_cases h : p x = true <;>
        simp [List.filter_cons, h, List.countP_cons, ih]

/-- The distinguished (id, source, title, url, author, created, permalink) tuple
of a stored item. -/
def postCore (p : Post) : String × String × String × String × String × Int × String :=
  (p.id, p.subreddit, p.title, p.url, p.author, p.created_utc, p.permalink)

/-- `find?` skips a block in which nothing matches. -/
theorem find?_append_of_none {α : Type} (p : α → Bool) {l1 : List α}
    (l2 : List α) (h : l1.find? p = none) :
    (l1 ++ l2).find? p = l2.find? p := by
  induction l1 with
  | nil => rfl
  | cons x t ih =>
      by_cases hx : p x = true
      · rw [List.find?_cons_of_pos t hx] at h
        exact absurd h (by simp)
      · rw [List.find?_cons_of_neg t hx] at h
        rw [List.cons_append, List.find?_cons_of_neg _ hx]
        exact ih h

/-- `add_post` only ever appends to the posts table. -/
theorem add_post_posts_extend (now : Nat) (s : DBState) (pd : PostData) :
    ∃ tail, (add_post false now s pd).2.posts = s.posts ++ tail := by
  simp only [add_post, if_neg, Bool.false_eq_true, not_false_iff]
  split
  · exact ⟨[], (List.append_nil _).symm⟩
  · exact ⟨_, rfl⟩

/-- A known post id stays known after `add_post`. -/
theorem add_post_preserves_known (now : Nat) (s : DBState) (pd : PostData)
    (i : String) (h : post_exists false s i = true) :
    post_exists false (add_post false now s pd).2 i = true := by
  obtain ⟨tail, ht⟩ := add_post_posts_extend now s pd
  simp only [post_exists, if_neg, Bool.false_eq_true, not_false_iff] at h ⊢
  rw [ht, List.any_append, h, Bool.true_or]

/-- `add_pending_approval` leaves the posts table alone. -/
theorem add_pending_posts_eq (now : Nat) (s : DBState) (pid : String) (a : Int)
    (rid : Nat) (m : Int) :
    (add_pending_approval false now s pid a rid m).2.posts = s.posts := rfl

/-- A known post id stays known across one `process_post` step. -/
theorem process_post_preserves_known (d : PostData → Option String)
    (dv : PostData → Option Int) (now : Nat) (a : Int) (rid : Nat)
    (acc : PassResult) (pd : PostData) (i : String)
    (h : post_exists false acc.state i = true) :
    post_exists false (process_post d dv false now a rid acc pd).state i = true := by
  unfold process_post
  split
  · exact h
  · cases hd : d pd with
    | some fp =>
      simp only
      split
      · cases hdv : dv { pd with file_path := some fp } with
        | some msgId =>
            simpa [add_pending_posts_eq, post_exists] using
              add_post_preserves_known now acc.state _ i h
        | none => exact add_post_preserves_known now acc.state _ i h
      · exact add_post_preserves_known now acc.state _ i h
    | none => exact add_post_preserves_known now acc.state _ i h

/-- A `process_post` step for an already-known post id is a complete no-op. -/
theorem process_post_skips_known (d : PostData → Option String)
    (dv : PostData → Option Int) (now : Nat) (a : Int) (rid : Nat)
    (acc : PassResult) (pd : PostData)
    (h : post_exists false acc.state pd.id = true) :
    process_post d dv false now a rid acc pd = acc := by
  unfold process_post
  rw [if_pos h]

/-- One `process_post` step grows `downloaded` by at most the current id. -/
theorem process_post_downloaded_cases (d : PostData → Option String)
    (dv : PostData → Option Int) (now : Nat) (a : Int) (rid : Nat)
    (acc : PassResult) (pd : PostData) :
    (process_post d dv false now a rid acc pd).downloaded = acc.downloaded ∨
    (process_post d dv false now a rid acc pd).downloaded =
      acc.downloaded ++ [pd.id] := by
  unfold process_post
  split
  · exact Or.inl rfl
  · cases d pd with
    | some fp =>
      simp only
      split
      · cases dv { pd with file_path := some fp } with
        | some msgId => exact Or.inr rfl
        | none => exact Or.inr rfl
      · exact Or.inr rfl
    | none => exact Or.inr rfl

/-- One `process_post` step grows `delivered` by at most the current id. -/
theorem process_post_delivered_cases (d : PostData → Option String)
    (dv : PostData → Option Int) (now : Nat) (a : Int) (rid : Nat)
    (acc : PassResult) (pd : PostData) :
    (process_post d dv false now a rid acc pd).delivered = acc.delivered ∨
    (process_post d dv false now a rid acc pd).delivered =
      acc.delivered ++ [pd.id] := by
  unfold process_post
  split
  · exact Or.inl rfl
  · cases d pd with
    | some fp =>
      simp only
      split
      · cases dv { pd with file_path := some fp } with
        | some msgId => exact Or.inr rfl
        | none => exact Or.inl rfl
      · exact Or.inl rfl
    | none => exact Or.inl rfl

/-- Folding the candidate loop over any post list: an id that is already known
and has not been downloaded or delivered so far stays known, undownloaded and
undelivered. -/
theorem process_posts_fold_exclusion (d : PostData → Option String)
    (dv : PostData → Option Int) (now : Nat) (a : Int) (rid : Nat) (i : String) :
    ∀ (posts : List PostData) (acc : PassResult),
      post_exists false acc.state i = true → i ∉ acc.downloaded →
      i ∉ acc.delivered →
      post_exists false
          (posts.foldl (process_post d dv false now a rid) acc).state i = true ∧
        i ∉ (posts.foldl (process_post d dv false now a rid) acc).downloaded ∧
        i ∉ (posts.foldl (process_post d dv false now a rid) acc).delivered := by
  intro posts
  induction posts with
  | nil => exact fun acc h1 h2 h3 => ⟨h1, h2, h3⟩
  | cons pd t ih =>
      intro acc h1 h2 h3
      rw [List.foldl_cons]
      by_cases hk : post_exists false acc.state pd.id = true
      · rw [process_post_skips_known d dv now a rid acc pd hk]
        exact ih acc h1 h2 h3
      · have hne : pd.id ≠ i := fun he => hk (he ▸ h1)
        apply ih
        · exact process_post_preserves_known d dv now a rid acc pd i h1
        · rcases process_post_downloaded_cases d dv now a rid acc pd with h | h <;>
            rw [h]
          · exact h2
          · intro hmem
            rcases List.mem_append.mp hmem with hm | hm
            · exact h2 hm
            · exact hne (List.mem_singleton.mp hm).symm
        · rcases process_post_delivered_cases d dv now a rid acc pd with h | h <;>
            rw [h]
          · exact h3
          · intro hmem
            rcases List.mem_append.mp hmem with hm | hm
            · exact h3 hm
            · exact hne (List.mem_singleton.mp hm).symm

/-! ### Claim theorems -/

/-- C1: the claim says exactly one `add_post` call per external id returns
`inserted = true`.  The code instead answers the freshness query
`scraped_at > now - 60`, so a duplicate call made within a minute of the insert
also returns `true`: below, the second call on a store already containing the id
returns `true` while inserting nothing. -/
theorem C1_duplicate_registration_returns_true_twice :
    (add_post false 0 emptyDB pdX).1 = true ∧
    (add_post false 30 (add_post false 0 emptyDB pdX).2 pdX).1 = true ∧
    (add_post false 30 (add_post false 0 emptyDB pdX).2 pdX).2.posts =
      (add_post false 0 emptyDB pdX).2.posts := by decide

/-- C2 counterexample: on a store with no `pending_approvals` row at all,
`approve_post` and `reject_post` both return `true` and both change state —
refuting the claim that they return `false` and perform no state change when no
PendingApproval exists for the triple. -/
theorem C2_counterexample_finalize_without_pending :
    sNoPending.pending = [] ∧
    (approve_post false 5 sNoPending "p" 7 1 "@chan" none).1 = true ∧
    (approve_post false 5 sNoPending "p" 7 1 "@chan" none).2.posts.map
      (fun p => p.status) = ["approved"] ∧
    (approve_post false 5 sNoPending "p" 7 1 "@chan" none).2.approved.length = 1 ∧
    sNoPending.approved.length = 0 ∧
    sNoPending.posts.map (fun p => p.status) = ["pending"] ∧
    (reject_post false sNoPending "p" 7 1).1 = true ∧
    (reject_post false sNoPending "p" 7 1).2.posts.map (fun p => p.status)
      = ["rejected"] := by decide

/-- C2 amended: `approve_post` and `reject_post` return `true` whenever the
store transaction succeeds, whether or not a PendingApproval row existed; they
apply their writes unconditionally and delete every `pending_approvals` row
matching the (post id, admin id, rule id) triple; `false` signals only a
storage failure, in which case nothing changes. -/
theorem C2_finalize_is_unconditional (now : Nat) (s : DBState) (pid : String)
    (a : Int) (rid : Nat) (tc : String) (fwd : Option Int) :
    (approve_post false now s pid a rid tc fwd).1 = true ∧
    (approve_post false now s pid a rid tc fwd).2.pending.countP
      (fun pa => paTripleMatch pid a rid pa) = 0 ∧
    approve_post true now s pid a rid tc fwd = (false, s) ∧
    (reject_post false s pid a rid).1 = true ∧
    (reject_post false s pid a rid).2.pending.countP
      (fun pa => paTripleMatch pid a rid pa) = 0 ∧
    reject_post true s pid a rid = (false, s) := by
  refine ⟨rfl, ?_, rfl, rfl, ?_, rfl⟩ <;>
  · simp only [approve_post, reject_post, decide_not, if_neg, Bool.false_eq_true,
      not_false_iff]
    exact countP_filter_not_eq_zero _ _

/-- C4: when the resolved file path is NULL, or names a file no longer on disk,
`_approve_post` reports the media as unavailable and returns with the store
untouched: `approve_post` is never reached, the post status stays as it was,
and the PendingApproval row survives for a manual retry. -/
theorem C4_lost_media_blocks_finalization (fs : List String) (send : Option Int)
    (dbFail : Bool) (now : Nat) (actor : Int) (s : DBState) (ad : ApprovalData)
    (h : ad.file_path = none ∨ ∃ fp, ad.file_path = some fp ∧ fp ∉ fs) :
    ((handler_approve_post fs send dbFail now actor s ad).1 =
        ApproveOutcome.mediaNotFound ∨
      (handler_approve_post fs send dbFail now actor s ad).1 =
        ApproveOutcome.mediaGone) ∧
    (handler_approve_post fs send dbFail now actor s ad).2 = s := by
  rcases h with h | ⟨fp, hfp, hout⟩
  · unfold handler_approve_post
    rw [h]
    exact ⟨Or.inl rfl, rfl⟩
  · unfold handler_approve_post
    rw [hfp]
    simp [hout]

/-- The joined approval row for a pending approval whose file path was never
resolved. -/
def adNoFile : ApprovalData :=
  { post_id := "p", rule_id := 1, target_channel := "@chan", file_path := none,
    title := "a dog", permalink := "https://reddit.com/p",
    media_type := some "image" }

/-- C4 witness: a NULL file path leaves the store of `sOnePending` untouched. -/
theorem C4_lost_media_blocks_finalization_witness :
    ((handler_approve_post [] none false 0 7 sOnePending adNoFile).1 =
        ApproveOutcome.mediaNotFound ∨
      (handler_approve_post [] none false 0 7 sOnePending adNoFile).1 =
        ApproveOutcome.mediaGone) ∧
    (handler_approve_post [] none false 0 7 sOnePending adNoFile).2 = sOnePending :=
  C4_lost_media_blocks_finalization [] none false 0 7 sOnePending adNoFile
    (Or.inl rfl)

/-- C5: two `add_forwarder_rule` calls with the same
(admin, subreddit, sort type, target channel) key and different frequencies
leave exactly one rule row for that key, carrying the frequency of the later
call. -/
theorem C5_upsert_rule_overwrites (s : DBState) (now1 now2 : Nat) (a : Int)
    (su st tc : String) (tf1 tf2 : Option String) (f1 f2 : Nat) :
    ((add_forwarder_rule false now2
        (add_forwarder_rule false now1 s a su st tf1 f1 tc).2
        a su st tf2 f2 tc).2.rules.filter
      (fun r => ruleKeyMatch a su st tc r)).map (fun r => r.frequency_hours)
      = [f2] := by
  simp only [add_forwarder_rule, if_neg, Bool.false_eq_true, not_false_iff,
    List.filter_append, decide_not]
  rw [filter_not_filter_eq_nil]
  simp [ruleKeyMatch]

/-- C6 counterexample: a storage failure inside `post_exists` returns the same
value as an ordinary healthy lookup of an absent item, and a failure inside
`get_active_rules` returns the same value as a healthy query with no active
rules — there is no distinct StoreUnavailable condition, even though
`sOnePending` holds the item and an active rule. -/
theorem C6_counterexample_failure_indistinguishable :
    post_exists true sOnePending "p" = post_exists false emptyDB "p" ∧
    get_active_rules true sOnePending = get_active_rules false emptyDB := by decide

/-- C6 amended: a storage failure inside `post_exists` or `get_active_rules` is
caught and surfaced to the caller as the ordinary negative result (`false`, the
empty list), so the caller continues without crashing but cannot distinguish a
store failure from an absent item or an empty rule set. -/
theorem C6_store_failure_reports_negative_default (s : DBState) (pid : String) :
    post_exists true s pid = false ∧ get_active_rules true s = [] :=
  ⟨rfl, rfl⟩

/-- C7: `_get_media_type` classifies in a fixed priority order — gallery marker,
then native reddit-video marker, then direct image extension or reddit image
host, then self post, then the default `video`. -/
theorem C7_media_type_priority_order (p : Submission) :
    (p.gallery_data = true → get_media_type p = "gallery") ∧
    (p.gallery_data = false → p.media ≠ [] → "reddit_video" ∈ p.media →
      get_media_type p = "video") ∧
    (p.gallery_data = false → ¬(p.media ≠ [] ∧ "reddit_video" ∈ p.media) →
      (getTypeImageExts.any (fun ext => p.url.endsWith ext) = true ∨
        strContainsSub p.url "i.redd.it" = true ∨
        strContainsSub p.url "preview.redd.it" = true) →
      get_media_type p = "image") ∧
    (p.gallery_data = false → ¬(p.media ≠ [] ∧ "reddit_video" ∈ p.media) →
      getTypeImageExts.any (fun ext => p.url.endsWith ext) = false →
      strContainsSub p.url "i.redd.it" = false →
      strContainsSub p.url "preview.redd.it" = false →
      p.is_self = true → get_media_type p = "text") ∧
    (p.gallery_data = false → ¬(p.media ≠ [] ∧ "reddit_video" ∈ p.media) →
      getTypeImageExts.any (fun ext => p.url.endsWith ext) = false →
      strContainsSub p.url "i.redd.it" = false →
      strContainsSub p.url "preview.redd.it" = false →
      p.is_self = false → get_media_type p = "video") := by
  refine ⟨?_, ?_, ?_, ?_, ?_⟩
  · intro hg
    unfold get_media_type
    rw [if_pos hg]
  · intro hg hne hmem
    unfold get_media_type
    rw [if_neg (by simp [hg]), if_pos ⟨hne, hmem⟩]
  · intro hg hnv himg
    unfold get_media_type
    rw [if_neg (by simp [hg]), if_neg hnv]
    by_cases ha : (getTypeImageExts.any fun ext => p.url.endsWith ext) = true
    · rw [if_pos ha]
    · rw [if_neg ha]
      rcases himg with h | h | h
      · exact absurd h ha
      · rw [if_pos (by simp [h])]
      · rw [if_pos (by simp [h])]
  · intro hg hnv hext h1 h2 hself
    unfold get_media_type
    rw [if_neg (by simp [hg]), if_neg hnv, if_neg (by simp [hext]),
      if_neg (by simp [h1, h2]), if_pos hself]
  · intro hg hnv hext h1 h2 hself
    unfold get_media_type
    rw [if_neg (by simp [hg]), if_neg hnv, if_neg (by simp [hext]),
      if_neg (by simp [h1, h2]), if_neg (by simp [hself])]

/-- A gallery submission. -/
def subGallery : Submission :=
  { gallery_data := true, media := [], url := "https://reddit.com/gallery/g1",
    is_self := false }

/-- C7 witness: the gallery marker wins. -/
theorem C7_media_type_priority_order_witness : get_media_type subGallery = "gallery" :=
  (C7_media_type_priority_order subGallery).1 rfl

/-- C8: a rule is due exactly when it was never checked or a full frequency
window has elapsed, and an undue rule is left entirely alone by `_check_rule`
(no scrape, no downloads, no deliveries, no state change). -/
theorem C8_due_condition (now : Nat) (r : Rule)
    (d : PostData → Option String) (dv : PostData → Option Int)
    (fail : Bool) (s : DBState) (posts : List PostData) :
    (should_check_rule now r = true ↔
      r.last_check = none ∨
        ∃ lc, r.last_check = some lc ∧ lc + r.frequency_hours * 3600 ≤ now) ∧
    (should_check_rule now r = false →
      check_rule d dv fail now s r posts =
        { state := s, downloaded := [], delivered := [] }) := by
  constructor
  · unfold should_check_rule
    cases h : r.last_check with
    | none => simp
    | some lc => simp [h]
  · intro hf
    unfold check_rule
    simp [hf]

/-- A rule last checked at time 0 with a four-hour frequency. -/
def ruleNotDue : Rule := { ruleR with last_check := some 0 }

/-- C8 witness: at time 0 the four-hour rule just checked is not due, and
`check_rule` does nothing. -/
theorem C8_due_condition_witness :
    check_rule (fun _ => none) (fun _ => none) false 0 emptyDB ruleNotDue [] =
      { state := emptyDB, downloaded := [], delivered := [] } :=
  (C8_due_condition 0 ruleNotDue (fun _ => none) (fun _ => none) false emptyDB
    []).2 (by decide)

/-- C9 counterexample: `approve_post` changes the `admin_id` column of the post
row (from NULL to the deciding admin), a field outside the
media kind / file path / status set the claim allows to change; the
media kind and file path themselves are untouched. -/
theorem C9_counterexample_admin_id_changes :
    sNoPending.posts.map (fun p => p.admin_id) = [none] ∧
    (approve_post false 5 sNoPending "p" 7 1 "@chan" none).2.posts.map
      (fun p => p.admin_id) = [some 7] ∧
    (approve_post false 5 sNoPending "p" 7 1 "@chan" none).2.posts.map
      (fun p => (p.media_type, p.file_path)) =
      sNoPending.posts.map (fun p => (p.media_type, p.file_path)) := by decide

/-- C9 amended: once inserted, the (id, source, title, url, author, created,
permalink) core of a post row is immutable — `add_post` never touches existing
rows (and is a complete no-op on the posts table when the id is already
present), while `approve_post` and `reject_post` change only the status and
deciding-admin fields, leaving core, media kind, file path and scrape time
intact. -/
theorem C9_core_fields_immutable (s : DBState) (pd : PostData) (now : Nat)
    (pid : String) (a : Int) (rid : Nat) (tc : String) (fwd : Option Int) :
    (∀ p ∈ s.posts, p ∈ (add_post false now s pd).2.posts) ∧
    ((∃ q ∈ s.posts, q.id = pd.id) → (add_post false now s pd).2.posts = s.posts) ∧
    (∀ p ∈ s.posts, ∃ p' ∈ (approve_post false now s pid a rid tc fwd).2.posts,
        postCore p' = postCore p ∧ p'.media_type = p.media_type ∧
        p'.file_path = p.file_path ∧ p'.scraped_at = p.scraped_at) ∧
    (∀ p ∈ s.posts, ∃ p' ∈ (reject_post false s pid a rid).2.posts,
        postCore p' = postCore p ∧ p'.media_type = p.media_type ∧
        p'.file_path = p.file_path ∧ p'.scraped_at = p.scraped_at) := by
  refine ⟨?_, ?_, ?_, ?_⟩
  · intro p hp
    simp only [add_post, if_neg, Bool.false_eq_true, not_false_iff]
    split
    · exact hp
    · exact List.mem_append_left _ hp
  · intro ⟨q, hq, hid⟩
    simp only [add_post, if_neg, Bool.false_eq_true, not_false_iff]
    rw [if_pos]
    exact List.any_eq_true.mpr ⟨q, hq, by simp [hid]⟩
  · intro p hp
    refine ⟨if p.id = pid
            then { p with status := "approved", admin_id := some a } else p,
      ?_, ?_⟩
    · exact List.mem_map_of_mem _ hp
    · by_cases h : p.id = pid <;> simp [h, postCore]
  · intro p hp
    refine ⟨if p.id = pid
            then { p with status := "rejected", admin_id := some a } else p,
      ?_, ?_⟩
    · exact List.mem_map_of_mem _ hp
    · by_cases h : p.id = pid <;> simp [h, postCore]

/-- C9 witness: the surviving row for the approved post of `sNoPending` keeps
its core tuple, media kind, file path and scrape time. -/
theorem C9_core_fields_immutable_witness :
    ∃ p' ∈ (approve_post false 5 sNoPending "p" 7 1 "@chan" none).2.posts,
      postCore p' = postCore postP ∧ p'.media_type = postP.media_type ∧
      p'.file_path = postP.file_path ∧ p'.scraped_at = postP.scraped_at :=
  (C9_core_fields_immutable sNoPending pdX 5 "p" 7 1 "@chan" none).2.2.1 postP
    (by decide)

/-- C3: when media resolution fails for a fresh candidate, the scheduler step
still registers the item — the posts table grows by exactly one row carrying a
NULL file path — and delivers nothing; the id is then known, and on any later
pass over any source list from any store that knows the id, the item is neither
downloaded again nor delivered. -/
theorem C3_fallback_exhaustion_is_terminal (d d2 : PostData → Option String)
    (dv dv2 : PostData → Option Int) (now now2 : Nat) (a a2 : Int)
    (rid rid2 : Nat) (acc : PassResult) (pd : PostData)
    (hd : d pd = none)
    (hnew : post_exists false acc.state pd.id = false) :
    (process_post d dv false now a rid acc pd).state.posts =
      acc.state.posts ++
        [{ id := pd.id, subreddit := pd.subreddit, title := pd.title,
           url := pd.url, author := pd.author, created_utc := pd.created_utc,
           permalink := pd.permalink, media_type := pd.media_type,
           file_path := none, scraped_at := now, status := "pending",
           admin_id := none }] ∧
    (process_post d dv false now a rid acc pd).delivered = acc.delivered ∧
    post_exists false (process_post d dv false now a rid acc pd).state pd.id
      = true ∧
    (∀ (s' : DBState) (posts2 : List PostData),
      post_exists false s' pd.id = true →
      pd.id ∉ (process_posts d2 dv2 false now2 a2 rid2 s' posts2).downloaded ∧
        pd.id ∉ (process_posts d2 dv2 false now2 a2 rid2 s' posts2).delivered) := by
  have hstep :
      process_post d dv false now a rid acc pd =
        { state := (add_post false now acc.state { pd with file_path := none }).2,
          downloaded := acc.downloaded ++ [pd.id],
          delivered := acc.delivered } := by
    unfold process_post
    rw [if_neg (by simp [hnew]), hd]
  have hany : acc.state.posts.any (fun p => p.id = pd.id) = false := by
    simpa [post_exists] using hnew
  have hposts :
      (add_post false now acc.state { pd with file_path := none }).2.posts =
        acc.state.posts ++
          [{ id := pd.id, subreddit := pd.subreddit, title := pd.title,
             url := pd.url, author := pd.author, created_utc := pd.created_utc,
             permalink := pd.permalink, media_type := pd.media_type,
             file_path := none, scraped_at := now, status := "pending",
             admin_id := none }] := by
    simp only [add_post]
    rw [if_neg (by simp)]
    simp [hany]
  refine ⟨by rw [hstep]; exact hposts, by rw [hstep], ?_, ?_⟩
  · rw [hstep]
    simp only [post_exists, if_neg, Bool.false_eq_true, not_false_iff]
    rw [hposts, List.any_append]
    simp
  · intro s' posts2 hknown
    have h := process_posts_fold_exclusion d2 dv2 now2 a2 rid2 pd.id posts2
      { state := s', downloaded := [], delivered := [] } hknown
      (List.not_mem_nil _) (List.not_mem_nil _)
    exact ⟨h.2.1, h.2.2⟩

/-- C3 witness: with a resolver that always fails, processing the fresh
candidate `pdX` from the empty store marks it known, and a second pass over a
source list containing `pdX` does not attempt the download again. -/
theorem C3_fallback_exhaustion_is_terminal_witness :
    post_exists false
      (process_post (fun _ => none) (fun _ => none) false 0 7 1
        { state := emptyDB, downloaded := [], delivered := [] } pdX).state
      pdX.id = true ∧
    pdX.id ∉ (process_posts (fun _ => none) (fun _ => none) false 100 7 1
      (process_post (fun _ => none) (fun _ => none) false 0 7 1
        { state := emptyDB, downloaded := [], delivered := [] } pdX).state
      [pdX]).downloaded := by
  have T := C3_fallback_exhaustion_is_terminal (fun _ => none) (fun _ => none)
    (fun _ => none) (fun _ => none) 0 100 7 7 1 1
    { state := emptyDB, downloaded := [], delivered := [] } pdX rfl (by decide)
  exact ⟨T.2.2.1, (T.2.2.2 _ [pdX] T.2.2.1).1⟩

/-- The rowid discipline SQLite maintains for the `forwarder_rules` table:
every stored id is below the AUTOINCREMENT counter and ids never repeat. -/
def rulesWF (s : DBState) : Prop :=
  (∀ r ∈ s.rules, r.id < s.nextRuleId) ∧ (s.rules.map (fun r => r.id)).Nodup

instance (s : DBState) : Decidable (rulesWF s) := by
  unfold rulesWF; infer_instance

/-- C10: replacing a rule through `add_forwarder_rule` mints a strictly larger
fresh id, the old id no longer resolves through `get_rule_by_id`, and the new
row restarts with the column defaults — active, created now, never checked. -/
theorem C10_replacement_mints_fresh_identity (s : DBState) (now : Nat) (a : Int)
    (su st tc : String) (tf : Option String) (f : Nat) (old : Rule)
    (hwf : rulesWF s) (hold : old ∈ s.rules)
    (hkey : ruleKeyMatch a su st tc old) :
    old.id < (add_forwarder_rule false now s a su st tf f tc).1 ∧
    get_rule_by_id false (add_forwarder_rule false now s a su st tf f tc).2
      old.id = none ∧
    get_rule_by_id false (add_forwarder_rule false now s a su st tf f tc).2
        (add_forwarder_rule false now s a su st tf f tc).1 =
      some { id := s.nextRuleId, admin_id := a, subreddit := su, sort_type := st,
             time_filter := tf, frequency_hours := f, target_channel := tc,
             active := true, created_at := now, last_check := none } := by
  have hlt : old.id < s.nextRuleId := hwf.1 old hold
  refine ⟨hlt, ?_, ?_⟩
  · simp only [add_forwarder_rule, get_rule_by_id, if_neg, Bool.false_eq_true,
      not_false_iff]
    rw [List.find?_eq_none]
    intro r hr
    rcases List.mem_append.mp hr with hm | hm
    · obtain ⟨hrs, hp⟩ := List.mem_filter.mp hm
      have hnk : ¬ ruleKeyMatch a su st tc r := by
        simpa using hp
      intro hid
      have hrid : r.id = old.id := by simpa using hid
      have : r = old :=
        List.inj_on_of_nodup_map hwf.2 hrs hold hrid
      exact hnk (this ▸ hkey)
    · have : r.id = s.nextRuleId := by
        rw [List.mem_singleton.mp hm]
      simp [this]
      omega
  · simp only [add_forwarder_rule, get_rule_by_id, if_neg, Bool.false_eq_true,
      not_false_iff]
    have hkept :
        List.find? (fun r => decide (r.id = s.nextRuleId))
          (s.rules.filter (fun r => ¬ ruleKeyMatch a su st tc r)) = none := by
      rw [List.find?_eq_none]
      intro r hr
      have hrs := (List.mem_filter.mp hr).1
      have : r.id < s.nextRuleId := hwf.1 r hrs
      simp
      omega
    rw [find?_append_of_none _ _ hkept]
    rw [List.find?_cons_of_pos _ (by simp)]

/-- C10 witness: re-adding the key of `ruleR` with a new frequency yields a
strictly larger rule id and retires the old one. -/
theorem C10_replacement_mints_fresh_identity_witness :
    ruleR.id < (add_forwarder_rule false 9 sNoPending 7 "pics" "hot" none 6
      "@chan").1 ∧
    get_rule_by_id false
      (add_forwarder_rule false 9 sNoPending 7 "pics" "hot" none 6 "@chan").2
      ruleR.id = none :=
  have T := C10_replacement_mints_fresh_identity sNoPending 9 7 "pics" "hot"
    "@chan" none 6 ruleR (by decide) (by decide) (by decide)
  ⟨T.1, T.2.1⟩

end RTF
